import Mathlib

/-!
Verification of the Grove sensors/actuators signal-conditioning pipeline
(`src/grove-sensors-actuators.cpp`).

Shallow embedding conventions:
- C `float`/`double` values are modelled as `ℚ` (the arithmetic performed by the
  program is exact on all inputs considered here); the NaN invalid marker of the
  DHT driver is modelled by `Option ℚ`, with `none` standing for NaN.
- Hardware reads (`digitalRead`, `analogRead`, driver calls) are modelled by an
  environment record holding the raw value each device would deliver this cycle.
- Hardware writes and the cloud publish are modelled by the payload the code
  hands to the device driver, or by events in a per-cycle trace.
- The process-wide globals `SensorValue` and `PublishWaitCount` become an
  explicit state record threaded through the loop body.
-/

/-- `#define PUBLISH_WAIT 100` -/
def PUBLISH_WAIT : ℕ := 100

/-- `#define INTERVAL 10` -/
def INTERVAL : ℕ := 10

/-- `#define TEMP_MIN 10` -/
def TEMP_MIN : ℚ := 10

/-- `#define TEMP_RANGE 20` -/
def TEMP_RANGE : ℚ := 20

/-- C library `round` on an exact rational: round half away from zero. -/
def cround (q : ℚ) : ℤ := if q < 0 then -⌊-q + 1/2⌋ else ⌊q + 1/2⌋

/-- C cast `(int)` on an exact rational: truncation toward zero. -/
def ctrunc (q : ℚ) : ℤ := if q < 0 then -⌊-q⌋ else ⌊q⌋

/-- `void publishNumber(float number)`: `if (++PublishWaitCount > PUBLISH_WAIT)
{ ... publish ...; PublishWaitCount = 0; }`.  Modelled as a function from the
current `PublishWaitCount` to (whether a publish was emitted, the new count). -/
def publishNumber (publishWaitCount : ℕ) : Bool × ℕ :=
  let c := publishWaitCount + 1
  if PUBLISH_WAIT < c then (true, 0) else (false, c)

/-- `int PublishWaitCount = PUBLISH_WAIT;` (initial value of the counter). -/
def PublishWaitCount0 : ℕ := PUBLISH_WAIT

/-- Counter value after `n` calls of `publishNumber`, starting from process
start. -/
def counterAfter : ℕ → ℕ
  | 0 => PublishWaitCount0
  | n + 1 => (publishNumber (counterAfter n)).2

/-- Whether the `(n+1)`-th call of `publishNumber` since process start emits a
publish (`n` is 0-indexed). -/
def publishAt (n : ℕ) : Bool := (publishNumber (counterAfter n)).1

/-- `float readButton()`: `digitalRead(...) == HIGH ? 1.0 : 0.0`. -/
def readButton (level : Bool) : ℚ :=
  if level then 1 else 0

/-- `float readDhtHumidity(float previousValue)`: NaN reading falls back to
`previousValue`, otherwise `value / 100.0`. -/
def readDhtHumidity (reading : Option ℚ) (previousValue : ℚ) : ℚ :=
  match reading with
  | none => previousValue
  | some value => value / 100

/-- `float readDhtTemperature(float previousValue)`: NaN reading falls back to
`previousValue`, otherwise `(value - TEMP_MIN) / TEMP_RANGE` clamped to [0,1]. -/
def readDhtTemperature (reading : Option ℚ) (previousValue : ℚ) : ℚ :=
  match reading with
  | none => previousValue
  | some v =>
    let value := (v - TEMP_MIN) / TEMP_RANGE
    if value < 0 then 0 else if value > 1 then 1 else value

/-- `float readLight()`: `1 - raw/1023.0`, clamped to [0,1]. -/
def readLight (raw : ℕ) : ℚ :=
  let value : ℚ := 1 - (raw : ℚ) / 1023
  if value < 0 then 0 else if value > 1 then 1 else value

/-- `float readRotary()`: dead-zone below 26 counts, then `value / 4096.0`. -/
def readRotary (raw : ℕ) : ℚ :=
  let value : ℚ := (raw : ℚ)
  let value2 := if value < 26 then 0 else value
  value2 / 4096

/-- `float readUltrasonic()`: `cm / 100.0`, clamped to [0,1]. -/
def readUltrasonic (cm : ℚ) : ℚ :=
  let range := cm / 100
  if range > 1 then 1 else if range < 0 then 0 else range

/-- `void write7Seg(float value)`, first step:
`displayValue = (int)(round(value * 100000.0 / 10.0))` then clamp to
[0, 9999]. -/
def write7SegValue (value : ℚ) : ℤ :=
  let displayValue := cround (value * 100000 / 10)
  if displayValue > 9999 then 9999 else if displayValue < 0 then 0 else displayValue

/-- `void write7Seg(float value)`: the four digits handed to
`tm1637.display(p, ...)` for positions `p = 0, 1, 2, 3`, in that order. -/
def write7Seg (value : ℚ) : List ℤ :=
  let displayValue := write7SegValue value
  [displayValue / 1000 % 10, displayValue / 100 % 10, displayValue / 10 % 10,
   displayValue % 10]

/-- `void writeBuzz(float value)`: the duty value handed to `analogWrite`
(`value * 255.0` clamped to [0, 255]). -/
def writeBuzz (value : ℚ) : ℚ :=
  let v := value * 255
  if v < 0 then 0 else if v > 255 then 255 else v

/-- `void writeLed(float value)`: the `(r, g, b)` triple handed to
`leds.setColorRGB(0, (int)value, (int)value, (int)value)` after
`value *= 255.0` and clamping to [0, 255]. -/
def writeLed (value : ℚ) : ℤ × ℤ × ℤ :=
  let v := value * 255
  let v2 := if v < 0 then 0 else if v > 255 then 255 else v
  (ctrunc v2, ctrunc v2, ctrunc v2)

/-- The sensor selection (`SENSOR_BUTTON` .. `SENSOR_DHT_TEMPERATURE`). -/
inductive Sensor where
  | button
  | light
  | rotary
  | ultrasonic
  | dhtHumidity
  | dhtTemperature
deriving DecidableEq

/-- The actuator selection (`ACTUATOR_7SEG`, `ACTUATOR_BUZZ`, `ACTUATOR_LED`). -/
inductive Actuator where
  | seg7
  | buzz
  | led
deriving DecidableEq

/-- The compile-time configuration `SENSOR`, `ACTUATOR`, `REVERSE`. -/
structure Config where
  sensor : Sensor
  actuator : Actuator
  reverse : Bool
deriving DecidableEq

/-- The raw values the hardware would deliver on one cycle: button level,
light and rotary ADC counts, ultrasonic centimeters, and the two DHT readings
(`none` = NaN invalid marker). -/
structure Env where
  buttonLevel : Bool
  lightRaw : ℕ
  rotaryRaw : ℕ
  ultrasonicCm : ℚ
  dhtHumidityRaw : Option ℚ
  dhtTemperatureRaw : Option ℚ
deriving DecidableEq

/-- The process-wide mutable globals: `float SensorValue` and
`int PublishWaitCount`. -/
structure LoopState where
  sensorValue : ℚ
  publishWaitCount : ℕ
deriving DecidableEq

/-- `float SensorValue = 0; int PublishWaitCount = PUBLISH_WAIT;` -/
def initialState : LoopState :=
  { sensorValue := 0, publishWaitCount := PUBLISH_WAIT }

/-- Observable steps of one `loop()` iteration.  `render` records the actuator
dispatched to and the value handed to the rendering function; `publish` would
record a call of `publishNumber`. -/
inductive Event where
  | read
  | invert
  | publish (value : ℚ)
  | render (actuator : Actuator) (value : ℚ)
  | sleep
deriving DecidableEq

/-- The first `switch (SENSOR)` of `loop()`: the value assigned to
`SensorValue` by the selected calibration function. -/
def readSensor (s : Sensor) (env : Env) (previousValue : ℚ) : ℚ :=
  match s with
  | .button => readButton env.buttonLevel
  | .light => readLight env.lightRaw
  | .rotary => readRotary env.rotaryRaw
  | .ultrasonic => readUltrasonic env.ultrasonicCm
  | .dhtHumidity => readDhtHumidity env.dhtHumidityRaw previousValue
  | .dhtTemperature => readDhtTemperature env.dhtTemperatureRaw previousValue

/-- One iteration of `void loop()`: the sensor `switch`, the `REVERSE` invert,
the actuator `switch`, and `delay(INTERVAL)`.  The call
`publishNumber(SensorValue)` is commented out in the source, so no publish
event is emitted and `PublishWaitCount` is untouched.  Returns the new global
state and the trace of observable steps in program order. -/
def loopStep (cfg : Config) (env : Env) (s : LoopState) : LoopState × List Event :=
  let v1 := readSensor cfg.sensor env s.sensorValue
  let v2 := if cfg.reverse then 1 - v1 else v1
  ({ sensorValue := v2, publishWaitCount := s.publishWaitCount },
   [Event.read] ++ (if cfg.reverse then [Event.invert] else []) ++
     [Event.render cfg.actuator v2, Event.sleep])

/-- C10: the rotary calibration has a gap below the dead-zone threshold: every
output is either exactly 0 or at least 26/4096; nothing strictly in between is
ever returned. -/
theorem readRotary_deadzone_gap (raw : ℕ) :
    readRotary raw = 0 ∨ (26 / 4096 : ℚ) ≤ readRotary raw := by
  unfold readRotary
  by_cases h : (raw : ℚ) < 26
  · left
    simp [h]
  · right
    simp only [h, if_false]
    rw [div_le_div_iff_of_pos_right (by norm_num)]
    linarith

/-- C6: for both stateful calibration functions, an invalid (NaN) reading makes
the function return its `previousValue` argument exactly, for every
`previousValue`. -/
theorem dht_fallback_law (prevH prevT : ℚ) :
    readDhtHumidity none prevH = prevH ∧ readDhtTemperature none prevT = prevT :=
  ⟨rfl, rfl⟩

lemma readButton_bounds (level : Bool) :
    0 ≤ readButton level ∧ readButton level ≤ 1 := by
  cases level <;> simp [readButton]

lemma readLight_bounds (raw : ℕ) :
    0 ≤ readLight raw ∧ readLight raw ≤ 1 := by
  simp only [readLight]
  split_ifs with h1 h2
  · norm_num
  · norm_num
  · constructor <;> linarith

lemma readRotary_nonneg (raw : ℕ) : 0 ≤ readRotary raw := by
  simp only [readRotary]
  split_ifs with h
  · norm_num
  · positivity

lemma readRotary_le_one (raw : ℕ) (h : raw ≤ 4096) : readRotary raw ≤ 1 := by
  simp only [readRotary]
  have hc : (raw : ℚ) ≤ 4096 := by exact_mod_cast h
  split_ifs with hlt
  · norm_num
  · rw [div_le_one (by norm_num)]
    exact hc

lemma readUltrasonic_bounds (cm : ℚ) :
    0 ≤ readUltrasonic cm ∧ readUltrasonic cm ≤ 1 := by
  simp only [readUltrasonic]
  split_ifs with h1 h2
  · norm_num
  · norm_num
  · constructor <;> linarith

lemma readDhtHumidity_bounds (reading : Option ℚ) (previousValue : ℚ)
    (hr : ∀ v ∈ reading, 0 ≤ v ∧ v ≤ 100)
    (h0 : 0 ≤ previousValue) (h1 : previousValue ≤ 1) :
    0 ≤ readDhtHumidity reading previousValue ∧
      readDhtHumidity reading previousValue ≤ 1 := by
  cases reading with
  | none => exact ⟨h0, h1⟩
  | some v =>
    obtain ⟨hv0, hv1⟩ := hr v rfl
    unfold readDhtHumidity
    constructor
    · positivity
    · rw [div_le_one (by norm_num)]
      exact hv1

lemma readDhtTemperature_bounds (reading : Option ℚ) (previousValue : ℚ)
    (h0 : 0 ≤ previousValue) (h1 : previousValue ≤ 1) :
    0 ≤ readDhtTemperature reading previousValue ∧
      readDhtTemperature reading previousValue ≤ 1 := by
  cases reading with
  | none => exact ⟨h0, h1⟩
  | some v =>
    simp only [readDhtTemperature]
    split_ifs with ha hb
    · norm_num
    · norm_num
    · constructor <;> linarith

/-- C7: every calibration function maps a raw reading inside its documented
raw domain (button level; light 0..1023; rotary 0..4096; any centimeter value;
humidity 0..100 percent or NaN; any Celsius value or NaN), with
`previousValue` in [0,1] for the two stateful functions, to a value in [0,1],
boundary raw values included. -/
theorem calibration_domain_range (level : Bool) (rawL rawR : ℕ) (cm : ℚ)
    (hum temp : Option ℚ) (prevH prevT : ℚ)
    (hL : rawL ≤ 1023) (hR : rawR ≤ 4096)
    (hhum : ∀ v ∈ hum, 0 ≤ v ∧ v ≤ 100)
    (hpH0 : 0 ≤ prevH) (hpH1 : prevH ≤ 1)
    (hpT0 : 0 ≤ prevT) (hpT1 : prevT ≤ 1) :
    (0 ≤ readButton level ∧ readButton level ≤ 1) ∧
    (0 ≤ readLight rawL ∧ readLight rawL ≤ 1) ∧
    (0 ≤ readRotary rawR ∧ readRotary rawR ≤ 1) ∧
    (0 ≤ readUltrasonic cm ∧ readUltrasonic cm ≤ 1) ∧
    (0 ≤ readDhtHumidity hum prevH ∧ readDhtHumidity hum prevH ≤ 1) ∧
    (0 ≤ readDhtTemperature temp prevT ∧ readDhtTemperature temp prevT ≤ 1) :=
  ⟨readButton_bounds level, readLight_bounds rawL,
   ⟨readRotary_nonneg rawR, readRotary_le_one rawR hR⟩,
   readUltrasonic_bounds cm,
   readDhtHumidity_bounds hum prevH hhum hpH0 hpH1,
   readDhtTemperature_bounds temp prevT hpT0 hpT1⟩

theorem calibration_domain_range_witness :
    (0 ≤ readButton true ∧ readButton true ≤ 1) ∧
    (0 ≤ readLight 1023 ∧ readLight 1023 ≤ 1) ∧
    (0 ≤ readRotary 4096 ∧ readRotary 4096 ≤ 1) ∧
    (0 ≤ readUltrasonic 1000 ∧ readUltrasonic 1000 ≤ 1) ∧
    (0 ≤ readDhtHumidity none 0 ∧ readDhtHumidity none 0 ≤ 1) ∧
    (0 ≤ readDhtTemperature none 1 ∧ readDhtTemperature none 1 ≤ 1) :=
  calibration_domain_range true 1023 4096 1000 none none 0 1
    (by decide) (by decide) (by simp) (le_refl 0) zero_le_one zero_le_one
    (le_refl 1)

/-- C5 counterexample: outside their documented raw domains, `readRotary` and
`readDhtHumidity` do exceed 1: a rotary count of 8192 yields 2 and a humidity
reading of 200 percent yields 2, so the claimed [0,1] bound for arbitrary raw
readings fails. -/
theorem calibration_unclamped_counterexample :
    (1 : ℚ) < readRotary 8192 ∧ (1 : ℚ) < readDhtHumidity (some 200) 0 := by
  constructor
  · norm_num [readRotary]
  · norm_num [readDhtHumidity]

/-- C5 amended: `readLight` clamps its output into [0,1] for every raw reading
whatsoever, but `readRotary` and `readDhtHumidity` stay in [0,1] only when the
raw reading lies inside the documented domain (counts at most 4096; a percent
reading in [0,100] or the NaN marker), given `previousValue` in [0,1] for the
stateful function. -/
theorem calibration_soft_clamp :
    (∀ raw : ℕ, 0 ≤ readLight raw ∧ readLight raw ≤ 1) ∧
    (∀ raw : ℕ, raw ≤ 4096 → 0 ≤ readRotary raw ∧ readRotary raw ≤ 1) ∧
    (∀ (reading : Option ℚ) (previousValue : ℚ),
      (∀ v ∈ reading, 0 ≤ v ∧ v ≤ 100) →
      0 ≤ previousValue → previousValue ≤ 1 →
      0 ≤ readDhtHumidity reading previousValue ∧
        readDhtHumidity reading previousValue ≤ 1) :=
  ⟨readLight_bounds,
   fun raw h => ⟨readRotary_nonneg raw, readRotary_le_one raw h⟩,
   readDhtHumidity_bounds⟩

theorem calibration_soft_clamp_witness :
    (0 ≤ readLight 0 ∧ readLight 0 ≤ 1) ∧
    (0 ≤ readRotary 4096 ∧ readRotary 4096 ≤ 1) ∧
    (0 ≤ readDhtHumidity none 0 ∧ readDhtHumidity none 0 ≤ 1) :=
  ⟨calibration_soft_clamp.1 0,
   calibration_soft_clamp.2.1 4096 (by decide),
   calibration_soft_clamp.2.2 none 0 (by simp) (le_refl 0) zero_le_one⟩

lemma counterAfter_mod (n : ℕ) :
    counterAfter n = (n + PUBLISH_WAIT) % (PUBLISH_WAIT + 1) := by
  induction n with
  | zero => decide
  | succ n ih =>
    have hstep : counterAfter (n + 1) = (publishNumber (counterAfter n)).2 := rfl
    rw [hstep, ih]
    simp only [publishNumber, PUBLISH_WAIT]
    split <;> simp <;> omega

/-- C1 counterexample: the counter is initialized to `PUBLISH_WAIT`, not 0, so
the very first call of `publishNumber` already publishes; the claim instead
requires the first `W = 100` calls (in particular call 1) to emit nothing. -/
theorem publishNumber_first_call_counterexample :
    publishAt 0 = true ∧ 1 ≤ PUBLISH_WAIT := by
  decide

/-- C1 amended: because `PublishWaitCount` starts at `PUBLISH_WAIT`, the first
call of `publishNumber` publishes (resetting the counter to zero), and from
then on the pattern is periodic with period `W + 1`: call `n+1` (0-indexed
`n`) publishes exactly when `n` is a multiple of `W + 1 = 101`, so each publish
is followed by `W` silent calls that only increment the counter. -/
theorem publishNumber_period :
    (∀ n : ℕ, publishAt n = true ↔ n % (PUBLISH_WAIT + 1) = 0) ∧
    (∀ n : ℕ, publishAt n = true → counterAfter (n + 1) = 0) ∧
    (∀ n : ℕ, publishAt n = false → counterAfter (n + 1) = counterAfter n + 1) := by
  have hstep : ∀ n : ℕ, counterAfter (n + 1) = (publishNumber (counterAfter n)).2 :=
    fun n => rfl
  refine ⟨fun n => ?_, fun n h => ?_, fun n h => ?_⟩
  · unfold publishAt publishNumber
    rw [counterAfter_mod n]
    simp only [PUBLISH_WAIT]
    by_cases hc : n % 101 = 0
    · have h2 : (n + 100) % 101 = 100 := by omega
      rw [h2]
      simp [hc]
    · have h2 : ¬ (100 < (n + 100) % 101 + 1) := by omega
      rw [if_neg h2]
      simp [hc]
  · by_cases hc : PUBLISH_WAIT < counterAfter n + 1
    · rw [hstep n]
      simp [publishNumber, hc]
    · simp [publishAt, publishNumber, hc] at h
  · by_cases hc : PUBLISH_WAIT < counterAfter n + 1
    · simp [publishAt, publishNumber, hc] at h
    · rw [hstep n]
      simp [publishNumber, hc]

/-- C2 counterexample: a full cycle of `loop()` (shown at the configuration
rotary → buzzer without invert, on a concrete environment and state) emits no
publish event and leaves `PublishWaitCount` untouched, because the call
`publishNumber(SensorValue)` is commented out in the source; the claim instead
requires a throttled publish and its counter update once per cycle. -/
theorem loop_no_publish_counterexample :
    (loopStep ⟨Sensor.rotary, Actuator.buzz, false⟩ ⟨false, 0, 0, 0, none, none⟩
        ⟨0, PUBLISH_WAIT⟩).1.publishWaitCount = PUBLISH_WAIT ∧
    (∀ v : ℚ, Event.publish v ∉
      (loopStep ⟨Sensor.rotary, Actuator.buzz, false⟩ ⟨false, 0, 0, 0, none, none⟩
        ⟨0, PUBLISH_WAIT⟩).2) := by
  constructor
  · rfl
  · intro v
    simp [loopStep]

/-- C2 amended: every iteration of the router cycle performs, in order, a
sensor read (with normalization inside the calibration function), the optional
invert, a render of the resulting value to the selected actuator, and the
fixed-interval sleep; the throttled-publish step is commented out in the
source, so no publish happens and the throttle counter is never updated. -/
theorem loop_cycle_order (cfg : Config) (env : Env) (s : LoopState) :
    (loopStep cfg env s).2 =
      [Event.read] ++ (if cfg.reverse then [Event.invert] else []) ++
        [Event.render cfg.actuator (loopStep cfg env s).1.sensorValue,
         Event.sleep] ∧
    (∀ v : ℚ, Event.publish v ∉ (loopStep cfg env s).2) ∧
    (loopStep cfg env s).1.publishWaitCount = s.publishWaitCount ∧
    (loopStep cfg env s).1.sensorValue =
      (if cfg.reverse then 1 - readSensor cfg.sensor env s.sensorValue
       else readSensor cfg.sensor env s.sensorValue) := by
  refine ⟨rfl, fun v => ?_, rfl, rfl⟩
  cases hr : cfg.reverse <;> simp [loopStep, hr]

/-- C3 counterexample: with the humidity sensor selected and the invert flag
set, a cycle whose DHT read returns the NaN invalid marker still changes the
stored fallback value: starting from `SensorValue = 0` the cycle stores
`1 - 0 = 1`, because the `REVERSE` assignment runs after the fallback. -/
theorem sensor_memory_invert_counterexample :
    (loopStep ⟨Sensor.dhtHumidity, Actuator.buzz, true⟩ ⟨false, 0, 0, 0, none, none⟩
        ⟨0, 0⟩).1.sensorValue = 1 ∧ (1 : ℚ) ≠ 0 := by
  constructor
  · simp [loopStep, readSensor, readDhtHumidity]
  · norm_num

/-- C3 amended: the calibration memory `SensorValue` starts at 0 at process
start, and when the invert flag is clear it is changed only by a successful
read: for either DHT sensor, any actuator, and any state, a cycle whose read
returns the invalid marker leaves the stored value exactly as it was.  (When
the invert flag is set, such a cycle instead replaces the stored value by one
minus itself.) -/
theorem sensor_memory :
    initialState.sensorValue = 0 ∧
    (∀ (a : Actuator) (env : Env) (s : LoopState),
      env.dhtHumidityRaw = none →
      (loopStep ⟨Sensor.dhtHumidity, a, false⟩ env s).1.sensorValue =
        s.sensorValue) ∧
    (∀ (a : Actuator) (env : Env) (s : LoopState),
      env.dhtTemperatureRaw = none →
      (loopStep ⟨Sensor.dhtTemperature, a, false⟩ env s).1.sensorValue =
        s.sensorValue) ∧
    (∀ (a : Actuator) (env : Env) (s : LoopState),
      env.dhtHumidityRaw = none →
      (loopStep ⟨Sensor.dhtHumidity, a, true⟩ env s).1.sensorValue =
        1 - s.sensorValue) := by
  refine ⟨rfl, fun a env s h => ?_, fun a env s h => ?_, fun a env s h => ?_⟩ <;>
    simp [loopStep, readSensor, readDhtHumidity, readDhtTemperature, h]

theorem sensor_memory_witness :
    (loopStep ⟨Sensor.dhtHumidity, Actuator.buzz, false⟩ ⟨false, 0, 0, 0, none, none⟩
        ⟨1/2, 0⟩).1.sensorValue = 1/2 :=
  sensor_memory.2.1 Actuator.buzz ⟨false, 0, 0, 0, none, none⟩ ⟨1/2, 0⟩ rfl

/-- C8: with the invert flag set, the value the router stores and hands to the
rendering function equals one minus the canonical value produced by
calibration, for every canonical value in [0,1]; in particular canonical 0
renders as 1 and canonical 1 renders as 0. -/
theorem invert_law (cfg : Config) (env : Env) (s : LoopState)
    (hr : cfg.reverse = true)
    (h0 : 0 ≤ readSensor cfg.sensor env s.sensorValue)
    (h1 : readSensor cfg.sensor env s.sensorValue ≤ 1) :
    (loopStep cfg env s).1.sensorValue =
      1 - readSensor cfg.sensor env s.sensorValue ∧
    Event.render cfg.actuator (1 - readSensor cfg.sensor env s.sensorValue) ∈
      (loopStep cfg env s).2 ∧
    (readSensor cfg.sensor env s.sensorValue = 0 →
      (loopStep cfg env s).1.sensorValue = 1) ∧
    (readSensor cfg.sensor env s.sensorValue = 1 →
      (loopStep cfg env s).1.sensorValue = 0) := by
  refine ⟨?_, ?_, ?_, ?_⟩
  · simp [loopStep, hr]
  · simp [loopStep, hr]
  · intro hz
    simp [loopStep, hr, hz]
  · intro ho
    simp [loopStep, hr, ho]

theorem invert_law_witness :
    (loopStep ⟨Sensor.button, Actuator.buzz, true⟩ ⟨false, 0, 0, 0, none, none⟩
        ⟨0, 0⟩).1.sensorValue =
      1 - readSensor Sensor.button ⟨false, 0, 0, 0, none, none⟩
            (LoopState.mk 0 0).sensorValue ∧
    Event.render Actuator.buzz
        (1 - readSensor Sensor.button ⟨false, 0, 0, 0, none, none⟩
          (LoopState.mk 0 0).sensorValue) ∈
      (loopStep ⟨Sensor.button, Actuator.buzz, true⟩ ⟨false, 0, 0, 0, none, none⟩
        ⟨0, 0⟩).2 ∧
    (readSensor Sensor.button ⟨false, 0, 0, 0, none, none⟩
        (LoopState.mk 0 0).sensorValue = 0 →
      (loopStep ⟨Sensor.button, Actuator.buzz, true⟩ ⟨false, 0, 0, 0, none, none⟩
        ⟨0, 0⟩).1.sensorValue = 1) ∧
    (readSensor Sensor.button ⟨false, 0, 0, 0, none, none⟩
        (LoopState.mk 0 0).sensorValue = 1 →
      (loopStep ⟨Sensor.button, Actuator.buzz, true⟩ ⟨false, 0, 0, 0, none, none⟩
        ⟨0, 0⟩).1.sensorValue = 0) :=
  invert_law ⟨Sensor.button, Actuator.buzz, true⟩ ⟨false, 0, 0, 0, none, none⟩
    ⟨0, 0⟩ rfl (by simp [readSensor, readButton]) (by simp [readSensor, readButton])

lemma write7SegValue_bounds (v : ℚ) :
    0 ≤ write7SegValue v ∧ write7SegValue v ≤ 9999 := by
  simp only [write7SegValue]
  split_ifs <;> omega

lemma ctrunc_bounds (q : ℚ) (h0 : 0 ≤ q) (h1 : q ≤ 255) :
    0 ≤ ctrunc q ∧ ctrunc q ≤ 255 := by
  simp only [ctrunc]
  rw [if_neg (by linarith)]
  refine ⟨Int.floor_nonneg.mpr h0, ?_⟩
  calc ⌊q⌋ ≤ ⌊(255 : ℚ)⌋ := Int.floor_le_floor h1
    _ = 255 := by norm_num

/-- C4 counterexample: `write7Seg(0.12345)` computes
`round(1234.5) = 1235` (C `round` rounds halves away from zero) and therefore
displays the digits 1, 2, 3, 5 — not 1, 2, 3, 4 as claimed. -/
theorem write7Seg_rounding_counterexample :
    write7Seg (12345 / 100000) = [1, 2, 3, 5] ∧
    ([1, 2, 3, 5] : List ℤ) ≠ [1, 2, 3, 4] := by
  constructor
  · norm_num [write7Seg, write7SegValue, cround]
  · decide

/-- C4 amended: `write7Seg(1.0)` displays 9, 9, 9, 9; `write7Seg(0.0)`
displays 0, 0, 0, 0; `write7Seg(0.12345)` displays 1, 2, 3, 5 (the halfway
value 1234.5 rounds away from zero); in general the displayed 4-digit number
equals `round(value × 10000)` (half away from zero) clamped to [0, 9999],
split into base-10 digits most-significant first (folding the digit list
most-significant first rebuilds the displayed number). -/
theorem write7Seg_digit_law :
    write7Seg 1 = [9, 9, 9, 9] ∧
    write7Seg 0 = [0, 0, 0, 0] ∧
    write7Seg (12345 / 100000) = [1, 2, 3, 5] ∧
    (∀ v : ℚ, write7SegValue v = max 0 (min 9999 (cround (v * 10000)))) ∧
    (∀ v : ℚ, (write7Seg v).foldl (fun acc d => 10 * acc + d) 0 =
      write7SegValue v) := by
  refine ⟨?_, ?_, ?_, fun v => ?_, fun v => ?_⟩
  · norm_num [write7Seg, write7SegValue, cround]
  · norm_num [write7Seg, write7SegValue, cround]
  · norm_num [write7Seg, write7SegValue, cround]
  · simp only [write7SegValue]
    have h : v * 100000 / 10 = v * 10000 := by ring
    rw [h]
    split_ifs <;> omega
  · obtain ⟨hb0, hb1⟩ := write7SegValue_bounds v
    simp only [write7Seg, List.foldl]
    omega

/-- C9: each rendering function defensively clamps for every input value:
`write7Seg` hands the display exactly four digits, each between 0 and 9,
`writeBuzz` hands `analogWrite` a duty in [0, 255], and `writeLed` hands the
LED driver R, G, B values each in [0, 255]. -/
theorem render_defensive_clamp (v : ℚ) :
    ((write7Seg v).length = 4 ∧ ∀ d ∈ write7Seg v, 0 ≤ d ∧ d ≤ 9) ∧
    (0 ≤ writeBuzz v ∧ writeBuzz v ≤ 255) ∧
    (0 ≤ (writeLed v).1 ∧ (writeLed v).1 ≤ 255 ∧
     0 ≤ (writeLed v).2.1 ∧ (writeLed v).2.1 ≤ 255 ∧
     0 ≤ (writeLed v).2.2 ∧ (writeLed v).2.2 ≤ 255) := by
  obtain ⟨hb0, hb1⟩ := write7SegValue_bounds v
  refine ⟨⟨rfl, fun d hd => ?_⟩, ?_, ?_⟩
  · simp only [write7Seg, List.mem_cons, List.not_mem_nil, or_false] at hd
    rcases hd with h | h | h | h <;> subst h <;> omega
  · simp only [writeBuzz]
    split_ifs with h1 h2
    · norm_num
    · norm_num
    · constructor <;> linarith
  · have hv : 0 ≤ (if v * 255 < 0 then (0 : ℚ) else if v * 255 > 255 then 255
          else v * 255) ∧
        (if v * 255 < 0 then (0 : ℚ) else if v * 255 > 255 then 255
          else v * 255) ≤ 255 := by
      split_ifs with h1 h2
      · norm_num
      · norm_num
      · constructor <;> linarith
    obtain ⟨hc0, hc1⟩ := ctrunc_bounds _ hv.1 hv.2
    exact ⟨hc0, hc1, hc0, hc1, hc0, hc1⟩
